import Mathlib

/-!
Verification of the privilege-acquisition / sandbox-construction core
(`process_fwd.hpp` of the Privexec repository).

The repository files at hand contain the class header (enums, inline
helpers, the `Process` and `AppContainer` class definitions with their
fields and member declarations); the bodies of the `Exec*` strategies and
of the `AppContainer` initializers live outside the given sources, so
those operations are modelled from the specification (each such definition
says so in its doc comment).  Everything that is present in the header —
the `EexcLevel` enumeration and its values, `CloseHandleEx`, the class
fields and their defaults, the declared member signatures — is embedded
directly from the source.
-/

/-- Execution level, from the source enum `EexcLevel`
(`None = -1, AppContainer, MIC, NoElevated, Elevated, System, TrustedInstaller`). -/
inductive EexcLevel where
  | None
  | AppContainer
  | MIC
  | NoElevated
  | Elevated
  | System
  | TrustedInstaller
deriving DecidableEq

/-- Numeric value of each enumerator, following C++ rules for the source
enum: `None = -1` and each later enumerator is the previous plus one. -/
def EexcLevel.value : EexcLevel → Int
  | .None => -1
  | .AppContainer => 0
  | .MIC => 1
  | .NoElevated => 2
  | .Elevated => 3
  | .System => 4
  | .TrustedInstaller => 5

/-- All values of the execution-level enumeration, in source order. -/
def EexcLevel.all : List EexcLevel :=
  [.None, .AppContainer, .MIC, .NoElevated, .Elevated, .System, .TrustedInstaller]

/-- Visibility mode, from the source enum `VisibleMode` (`None = 0, NewConsole, Hide`). -/
inductive VisibleMode where
  | None
  | NewConsole
  | Hide
deriving DecidableEq

/-- `INVALID_HANDLE_VALUE` is `(HANDLE)-1`; handles are modelled as integers. -/
def INVALID_HANDLE_VALUE : Int := -1

/-- `CloseHandleEx(HANDLE &h)` from the source: if `h != INVALID_HANDLE_VALUE`
then `::CloseHandle(h); h = INVALID_HANDLE_VALUE;`.  Returns the updated
handle variable together with the list of handles passed to `::CloseHandle`. -/
def CloseHandleEx (h : Int) : Int × List Int :=
  if h ≠ INVALID_HANDLE_VALUE then (INVALID_HANDLE_VALUE, [h]) else (h, [])

/-- The `priv::Process` object state, from the source class fields:
`cmd`, `cwd`, `kmessage`, `pid{0}`, `visible{VisibleMode::None}`. -/
structure Process where
  cmd : String := ""
  cwd : String := ""
  kmessage : String := ""
  pid : Nat := 0
  visible : VisibleMode := VisibleMode.None
deriving DecidableEq

/-- The `priv::AppContainer` object state, from the source class fields:
`cmd`, `cwd`, `name`, `alloweddirs`, `registries`, `strid`, `folder`,
`kmessage`, `appcontainersid{nullptr}`, `ca`, `visible`.  SIDs are modelled
as natural numbers; the null `PSID` is `none`. -/
structure AppContainer where
  cmd : String := ""
  cwd : String := ""
  name : String := ""
  alloweddirs : List String := []
  registries : List String := []
  strid : String := ""
  folder : String := ""
  kmessage : String := ""
  appcontainersid : Option Nat := none
  ca : List Nat := []
  visible : VisibleMode := VisibleMode.None
deriving DecidableEq

/-- Teardown of an `AppContainer` object as the source defines it: the class
declares no destructor, so the implicitly-generated destructor destroys the
string/vector members and leaves the raw `appcontainersid` pointer and the
heap-owned capability SIDs untouched.  The list of SIDs that teardown
releases is therefore empty, whatever the object's state. -/
def AppContainer.destructorReleases (_ : AppContainer) : List Nat := []

/-- Modelled from the spec: the kinds of OS-level steps an acquisition
strategy performs (privilege enablement, donor lookup, token open/duplicate,
integrity rewrite, service start, elevation request, profile attachment,
process creation).  The bodies of the `Process::Exec*` strategies are not
among the given sources; the trace of these actions is what the temporal
claims are stated over. -/
inductive OSAction where
  | enablePrivilege (privName : String)
  | findDonor (level : EexcLevel)
  | openDupToken (donorPid : Nat)
  | dupSelfToken
  | adjustIntegrity
  | startService (svcName : String)
  | buildProfile
  | elevate
  | launch
deriving DecidableEq

/-- Modelled from the spec: the oracle describing the operating system's
responses to the steps of §4.1–§4.4 (donor lookup per level, token
open/duplicate outcomes, privilege enablement, the installer-trust service
state, process creation, elevation, capability-name resolution, well-known
SID creation, the profile-SID/folder derivations, manifest parsing).
A process id of `0` from `launchPid`/`elevatePid` means the creation failed;
a successful creation reports a non-zero id. -/
structure OS where
  donor : EexcLevel → Option Nat
  openDupOk : Nat → Bool
  enableOk : String → Bool
  dupSelfOk : Bool
  adjustOk : Bool
  tiRunning : Bool
  startOk : Bool
  launchPid : Nat
  elevatePid : Nat
  acProfileOk : Bool
  resolveCapability : String → Option Nat
  wellKnownSid : Nat → Option Nat
  deriveSid : String → Nat
  sidString : Nat → String
  folderOf : String → String
  profileQuotaOk : Bool
  parseManifest : String → Option (List String)

/-- Modelled from the spec: the OS registry of container profiles that
persist across calls under their name (§6). -/
structure World where
  profiles : List String
deriving DecidableEq

/-- Modelled from the spec (§4.4 ProcessLauncher): the final process-creation
step, shared by every token-based strategy.  On success the resulting
non-zero pid is stored and the diagnostic cleared; on failure the diagnostic
is set and the stored pid keeps its prior value. -/
def Process.launchWith (os : OS) (p : Process) (tr : List OSAction) :
    Bool × Process × List OSAction :=
  if os.launchPid ≠ 0 then
    (true, { p with pid := os.launchPid, kmessage := "" }, tr ++ [OSAction.launch])
  else
    (false, { p with kmessage := "LaunchError: process creation failed" },
      tr ++ [OSAction.launch])

/-- Modelled from the spec (§4.1, `none` row): launch directly with the
caller's own context, no token change. -/
def Process.ExecNone (os : OS) (p : Process) : Bool × Process × List OSAction :=
  Process.launchWith os p []

/-- Modelled from the spec (§4.1, `low-integrity` row): duplicate the
caller's own token as primary, rewrite its integrity label downward,
launch with the rewritten token. -/
def Process.ExecLow (os : OS) (p : Process) : Bool × Process × List OSAction :=
  if os.dupSelfOk then
    if os.adjustOk then
      Process.launchWith os p [OSAction.dupSelfToken, OSAction.adjustIntegrity]
    else
      (false, { p with kmessage := "TokenAdjustError: integrity label rewrite refused" },
        [OSAction.dupSelfToken, OSAction.adjustIntegrity])
  else
    (false, { p with kmessage := "AccessDeniedError: token duplication refused" },
      [OSAction.dupSelfToken])

/-- Modelled from the spec (§4.1/§4.2): the donor-based tail shared by the
`no-elevated`, `system` and `trusted-installer` strategies — find a donor
process for the level, open and duplicate its token, launch with it.
`NotFoundError` when no donor matches, `AccessDeniedError` when the
open/duplicate is refused. -/
def Process.execDonorCore (os : OS) (p : Process) (lvl : EexcLevel)
    (tr : List OSAction) : Bool × Process × List OSAction :=
  match os.donor lvl with
  | none =>
      (false, { p with kmessage := "NotFoundError: no donor process matches" },
        tr ++ [OSAction.findDonor lvl])
  | some d =>
      if os.openDupOk d then
        Process.launchWith os p (tr ++ [OSAction.findDonor lvl, OSAction.openDupToken d])
      else
        (false, { p with kmessage := "AccessDeniedError: open or duplicate token refused" },
          tr ++ [OSAction.findDonor lvl, OSAction.openDupToken d])

/-- Modelled from the spec (§4.1, `no-elevated` row): locate a currently
running unelevated donor process, duplicate its token, launch with it. -/
def Process.ExecNoElevated (os : OS) (p : Process) : Bool × Process × List OSAction :=
  Process.execDonorCore os p EexcLevel.NoElevated []

/-- Modelled from the spec (§4.1, `elevated` row): defer to the OS elevation
mechanism and record the resulting process id if available. -/
def Process.ExecElevated (os : OS) (p : Process) : Bool × Process × List OSAction :=
  if os.elevatePid ≠ 0 then
    (true, { p with pid := os.elevatePid, kmessage := "" }, [OSAction.elevate])
  else
    (false, { p with kmessage := "LaunchError: the OS elevation request was declined" },
      [OSAction.elevate])

/-- Modelled from the spec (§4.1, `system` row): enable the debug and
impersonate privileges on the caller, then run the donor-based tail with a
system-account donor. -/
def Process.ExecSystem (os : OS) (p : Process) : Bool × Process × List OSAction :=
  if os.enableOk "SeDebugPrivilege" then
    if os.enableOk "SeImpersonatePrivilege" then
      Process.execDonorCore os p EexcLevel.System
        [OSAction.enablePrivilege "SeDebugPrivilege",
         OSAction.enablePrivilege "SeImpersonatePrivilege"]
    else
      (false, { p with kmessage := "PrivilegeError: cannot enable a required privilege" },
        [OSAction.enablePrivilege "SeDebugPrivilege",
         OSAction.enablePrivilege "SeImpersonatePrivilege"])
  else
    (false, { p with kmessage := "PrivilegeError: cannot enable a required privilege" },
      [OSAction.enablePrivilege "SeDebugPrivilege"])

/-- Modelled from the spec (§4.1, `trusted-installer` row): same technique
as `system`, but the donor is the installer-trust service process; if that
service is not currently running it is started first — one single start
attempt, never a retry loop. -/
def Process.ExecTI (os : OS) (p : Process) : Bool × Process × List OSAction :=
  if os.enableOk "SeDebugPrivilege" then
    if os.enableOk "SeImpersonatePrivilege" then
      if os.tiRunning then
        Process.execDonorCore os p EexcLevel.TrustedInstaller
          [OSAction.enablePrivilege "SeDebugPrivilege",
           OSAction.enablePrivilege "SeImpersonatePrivilege"]
      else if os.startOk then
        Process.execDonorCore os p EexcLevel.TrustedInstaller
          [OSAction.enablePrivilege "SeDebugPrivilege",
           OSAction.enablePrivilege "SeImpersonatePrivilege",
           OSAction.startService "TrustedInstaller"]
      else
        (false, { p with kmessage := "NotFoundError: the installer-trust service could not be started" },
          [OSAction.enablePrivilege "SeDebugPrivilege",
           OSAction.enablePrivilege "SeImpersonatePrivilege",
           OSAction.startService "TrustedInstaller"])
    else
      (false, { p with kmessage := "PrivilegeError: cannot enable a required privilege" },
        [OSAction.enablePrivilege "SeDebugPrivilege",
         OSAction.enablePrivilege "SeImpersonatePrivilege"])
  else
    (false, { p with kmessage := "PrivilegeError: cannot enable a required privilege" },
      [OSAction.enablePrivilege "SeDebugPrivilege"])

/-- Modelled from the spec (§4.1, `app-container` row / §4.3–§4.4): build or
validate the container profile and launch with its security-capability
descriptor attached instead of a token. -/
def Process.ExecWithAppContainer (os : OS) (p : Process) : Bool × Process × List OSAction :=
  if os.acProfileOk then
    Process.launchWith os p [OSAction.buildProfile]
  else
    (false, { p with kmessage := "ProfileError: container profile create or open failed" },
      [OSAction.buildProfile])

/-- Modelled from the spec (§4.1 LevelResolver): `Process::Exec(EexcLevel el)`
dispatches on the requested execution level to the seven strategies declared
in the source header. -/
def Process.Exec (os : OS) (p : Process) (el : EexcLevel) : Bool × Process × List OSAction :=
  match el with
  | EexcLevel.None => Process.ExecNone os p
  | EexcLevel.AppContainer => Process.ExecWithAppContainer os p
  | EexcLevel.MIC => Process.ExecLow os p
  | EexcLevel.NoElevated => Process.ExecNoElevated os p
  | EexcLevel.Elevated => Process.ExecElevated os p
  | EexcLevel.System => Process.ExecSystem os p
  | EexcLevel.TrustedInstaller => Process.ExecTI os p

/-- The source declares `bool Exec(EexcLevel el = EexcLevel::None)`: a call
without an argument runs at the `None` level. -/
def Process.ExecDefault (os : OS) (p : Process) : Bool × Process × List OSAction :=
  Process.Exec os p EexcLevel.None

/-- Modelled from the spec (§4.3): resolve a list through a possibly-failing
map; any single failure is a hard failure of the whole resolution (an
unknown name is not silently skipped). -/
def resolveAll (f : α → Option Nat) : List α → Option (List Nat)
  | [] => some []
  | n :: rest =>
      match f n with
      | none => none
      | some s =>
          match resolveAll f rest with
          | none => none
          | some ss => some (s :: ss)

/-- Modelled from the spec (§4.3 AppContainerProfileBuilder): create-or-open
the container profile under the object's configured name with the given
(deduplicated) capability SID set.  Fails on an invalid/empty name and on an
OS-level creation failure; an existing profile of the same name is opened,
not duplicated, and never a failure by itself.  The profile SID is the
OS-computed derivation of the name; on success `strid` and `folder` are
populated from the OS derivations and the diagnostic is cleared. -/
def AppContainer.initFromSids (os : OS) (w : World) (ac : AppContainer)
    (sids : List Nat) : Bool × AppContainer × World :=
  if ac.name = "" then
    (false, { ac with kmessage := "ProfileError: invalid or empty container name" }, w)
  else if ac.name ∈ w.profiles then
    (true,
      { ac with appcontainersid := some (os.deriveSid ac.name),
                ca := sids.dedup,
                strid := os.sidString (os.deriveSid ac.name),
                folder := os.folderOf ac.name,
                kmessage := "" }, w)
  else if os.profileQuotaOk then
    (true,
      { ac with appcontainersid := some (os.deriveSid ac.name),
                ca := sids.dedup,
                strid := os.sidString (os.deriveSid ac.name),
                folder := os.folderOf ac.name,
                kmessage := "" },
      { profiles := ac.name :: w.profiles })
  else
    (false, { ac with kmessage := "ProfileError: container profile creation failed" }, w)

/-- Modelled from the spec (§4.3 `InitializeDefault`): the source member
`bool InitializeNone()` — create-or-open the profile with an empty
capability set. -/
def AppContainer.InitializeNone (os : OS) (w : World) (ac : AppContainer) :
    Bool × AppContainer × World :=
  AppContainer.initFromSids os w ac []

/-- Modelled from the spec (§4.3 `InitializeWithCapabilityNames`): the source
member `bool Initialzie(const bela::Span<std::wstring> caps)` (name as in the
source) — resolve each capability name to a SID, an unknown name being a hard
`UnknownCapabilityError`, then create-or-open the profile with that set. -/
def AppContainer.Initialzie (os : OS) (w : World) (ac : AppContainer)
    (caps : List String) : Bool × AppContainer × World :=
  match resolveAll os.resolveCapability caps with
  | none =>
      (false, { ac with kmessage := "UnknownCapabilityError: capability name resolution failed" }, w)
  | some sids => AppContainer.initFromSids os w ac sids

/-- Modelled from the spec (§4.3 `InitializeWithWellKnownIds`): the source
member `bool Initialize(const bela::Span<wid_t> wids)` — capability SIDs are
built directly from well-known SID identifiers, bypassing name resolution. -/
def AppContainer.Initialize (os : OS) (w : World) (ac : AppContainer)
    (wids : List Nat) : Bool × AppContainer × World :=
  match resolveAll os.wellKnownSid wids with
  | none =>
      (false, { ac with kmessage := "ProfileError: well-known capability SID creation failed" }, w)
  | some sids => AppContainer.initFromSids os w ac sids

/-- Modelled from the spec (§4.3 `InitializeFromManifest`): the source member
`bool InitialzieFile(std::wstring_view file)` (name as in the source) —
extract capability names via the external manifest-parsing collaborator,
then behave as the capability-name initializer. -/
def AppContainer.InitialzieFile (os : OS) (w : World) (ac : AppContainer)
    (file : String) : Bool × AppContainer × World :=
  match os.parseManifest file with
  | none =>
      (false, { ac with kmessage := "ManifestParseError: manifest file absent or malformed" }, w)
  | some names => AppContainer.Initialzie os w ac names

/-- A concrete OS oracle used by the witnesses: no donor process is present
at any level, every other step succeeds, capability names resolve to their
length when non-empty, and the profile SID derivation is the name's length
plus one hundred. -/
def sampleOS : OS where
  donor := fun _ => none
  openDupOk := fun _ => true
  enableOk := fun _ => true
  dupSelfOk := true
  adjustOk := true
  tiRunning := true
  startOk := true
  launchPid := 7
  elevatePid := 8
  acProfileOk := true
  resolveCapability := fun n => if n.length = 0 then none else some n.length
  wellKnownSid := fun i => if i = 0 then none else some i
  deriveSid := fun n => n.length + 100
  sidString := fun s => String.append "S-1-15-2-" (Nat.repr s)
  folderOf := fun n => String.append "C:/Users/AppContainer/" n
  profileQuotaOk := true
  parseManifest := fun _ => some []

def ExecObs (prior : Process) (r : Bool × Process × List OSAction) : Prop :=
  (r.1 = true ↔ r.2.1.kmessage = "") ∧
  (r.1 = true → r.2.1.pid ≠ 0) ∧
  (r.1 = false → r.2.1.kmessage ≠ "" ∧ r.2.1.pid = prior.pid)

theorem launchWith_obs (os : OS) (p : Process) (tr : List OSAction) :
    ExecObs p (Process.launchWith os p tr) := by
  unfold ExecObs Process.launchWith
  split <;> simp_all

theorem execDonorCore_obs (os : OS) (p : Process) (lvl : EexcLevel)
    (tr : List OSAction) : ExecObs p (Process.execDonorCore os p lvl tr) := by
  unfold Process.execDonorCore
  split
  · unfold ExecObs; simp
  · split
    · exact launchWith_obs os p _
    · unfold ExecObs; simp

theorem exec_obs (os : OS) (p : Process) (el : EexcLevel) :
    ExecObs p (Process.Exec os p el) := by
  cases el
  case None => exact launchWith_obs os p _
  case AppContainer =>
    show ExecObs p (Process.ExecWithAppContainer os p)
    unfold Process.ExecWithAppContainer
    split
    · exact launchWith_obs os p _
    · unfold ExecObs; simp
  case MIC =>
    show ExecObs p (Process.ExecLow os p)
    unfold Process.ExecLow
    split
    · split
      · exact launchWith_obs os p _
      · unfold ExecObs; simp
    · unfold ExecObs; simp
  case NoElevated => exact execDonorCore_obs os p _ _
  case Elevated =>
    show ExecObs p (Process.ExecElevated os p)
    unfold Process.ExecElevated
    split <;> (unfold ExecObs; simp_all)
  case System =>
    show ExecObs p (Process.ExecSystem os p)
    unfold Process.ExecSystem
    split
    · split
      · exact execDonorCore_obs os p _ _
      · unfold ExecObs; simp
    · unfold ExecObs; simp
  case TrustedInstaller =>
    show ExecObs p (Process.ExecTI os p)
    unfold Process.ExecTI
    split
    · split
      · split
        · exact execDonorCore_obs os p _ _
        · split
          · exact execDonorCore_obs os p _ _
          · unfold ExecObs; simp
      · unfold ExecObs; simp
    · unfold ExecObs; simp

theorem launchWith_trace (os : OS) (p : Process) (tr : List OSAction) :
    (Process.launchWith os p tr).2.2 = tr ++ [OSAction.launch] := by
  unfold Process.launchWith; split <;> rfl

theorem execDonorCore_trace_nodup (os : OS) (p : Process) (lvl : EexcLevel)
    (tr : List OSAction) (hn : tr.Nodup)
    (hf : OSAction.findDonor lvl ∉ tr)
    (ho : ∀ d, OSAction.openDupToken d ∉ tr)
    (hl : OSAction.launch ∉ tr) :
    ((Process.execDonorCore os p lvl tr).2.2).Nodup := by
  unfold Process.execDonorCore
  split
  · simp_all [List.nodup_append, List.disjoint_left]
  · split
    · rw [launchWith_trace]
      simp_all [List.nodup_append, List.disjoint_left]
      intro a ha
      refine ⟨?_, ?_, ?_⟩ <;> rintro rfl
      · exact hf ha
      · exact ho _ ha
      · exact hl ha
    · simp_all [List.nodup_append, List.disjoint_left]
      intro a ha
      refine ⟨?_, ?_⟩ <;> rintro rfl
      · exact hf ha
      · exact ho _ ha

theorem exec_trace_nodup (os : OS) (p : Process) (el : EexcLevel) :
    ((Process.Exec os p el).2.2).Nodup := by
  cases el
  case None =>
    show ((Process.ExecNone os p).2.2).Nodup
    unfold Process.ExecNone
    rw [launchWith_trace]; simp
  case AppContainer =>
    show ((Process.ExecWithAppContainer os p).2.2).Nodup
    unfold Process.ExecWithAppContainer
    split
    · rw [launchWith_trace]; simp
    · simp
  case MIC =>
    show ((Process.ExecLow os p).2.2).Nodup
    unfold Process.ExecLow
    split
    · split
      · rw [launchWith_trace]; simp
      · simp
    · simp
  case NoElevated =>
    exact execDonorCore_trace_nodup os p _ _ (by simp) (by simp) (by simp) (by simp)
  case Elevated =>
    show ((Process.ExecElevated os p).2.2).Nodup
    unfold Process.ExecElevated
    split <;> simp
  case System =>
    show ((Process.ExecSystem os p).2.2).Nodup
    unfold Process.ExecSystem
    split
    · split
      · apply execDonorCore_trace_nodup <;> simp
      · simp
    · simp
  case TrustedInstaller =>
    show ((Process.ExecTI os p).2.2).Nodup
    unfold Process.ExecTI
    split
    · split
      · split
        · apply execDonorCore_trace_nodup <;> simp
        · split
          · apply execDonorCore_trace_nodup <;> simp
          · simp
      · simp
    · simp

example (l : List OSAction) (h : l.Nodup) (a : OSAction) : l.count a ≤ 1 :=
  (List.nodup_iff_count_le_one.mp h) a

theorem resolveAll_eq_none (f : α → Option Nat) (l : List α) (n : α)
    (hmem : n ∈ l) (hres : f n = none) : resolveAll f l = none := by
  induction l with
  | nil => cases hmem
  | cons x xs ih =>
    unfold resolveAll
    rcases List.mem_cons.mp hmem with h | h
    · subst h; rw [hres]
    · cases hfx : f x
      · rfl
      · rw [ih h]

theorem initFromSids_obs (os : OS) (w : World) (ac : AppContainer) (sids : List Nat) :
    (AppContainer.initFromSids os w ac sids).1 = true ↔
      (AppContainer.initFromSids os w ac sids).2.1.kmessage = "" := by
  unfold AppContainer.initFromSids
  split
  · simp
  · split
    · simp
    · split <;> simp

theorem initFromSids_success (os : OS) (w : World) (ac : AppContainer) (sids : List Nat)
    (h : (AppContainer.initFromSids os w ac sids).1 = true) :
    (AppContainer.initFromSids os w ac sids).2.1.name = ac.name ∧
    (AppContainer.initFromSids os w ac sids).2.1.appcontainersid = some (os.deriveSid ac.name) ∧
    ac.name ∈ (AppContainer.initFromSids os w ac sids).2.2.profiles ∧
    ¬ac.name = "" := by
  unfold AppContainer.initFromSids at h ⊢
  split at h
  · exact absurd h (by simp)
  · split at h
    · simp_all
    · split at h
      · simp_all
      · exact absurd h (by simp)

theorem initialzie_obs (os : OS) (w : World) (ac : AppContainer) (caps : List String) :
    (AppContainer.Initialzie os w ac caps).1 = true ↔
      (AppContainer.Initialzie os w ac caps).2.1.kmessage = "" := by
  unfold AppContainer.Initialzie
  split
  · simp
  · exact initFromSids_obs os w ac _

theorem initialize_obs (os : OS) (w : World) (ac : AppContainer) (wids : List Nat) :
    ( AppContainer.Initialize os w ac wids).1 = true ↔
      ( AppContainer.Initialize os w ac wids).2.1.kmessage = "" := by
  unfold AppContainer.Initialize
  split
  · simp
  · exact initFromSids_obs os w ac _

theorem initialzieFile_obs (os : OS) (w : World) (ac : AppContainer) (file : String) :
    (AppContainer.InitialzieFile os w ac file).1 = true ↔
      (AppContainer.InitialzieFile os w ac file).2.1.kmessage = "" := by
  unfold AppContainer.InitialzieFile
  split
  · simp
  · exact initialzie_obs os w ac _

/-- C1: for each of the levels `no-elevated`, `system` and `trusted-installer`,
when no eligible donor process is present `Process::Exec` returns failure and
the stored process id keeps its prior value — a failed call never reports a
nonzero (new) pid. -/
theorem exec_no_donor_fails_pid_unchanged :
    ∀ (os : OS) (p : Process) (el : EexcLevel),
      (el = EexcLevel.NoElevated ∨ el = EexcLevel.System ∨ el = EexcLevel.TrustedInstaller) →
      os.donor el = none →
      (Process.Exec os p el).1 = false ∧ (Process.Exec os p el).2.1.pid = p.pid := by
  intro os p el hel hd
  have hfail : (Process.Exec os p el).1 = false := by
    rcases hel with rfl | rfl | rfl
    · show (Process.execDonorCore os p EexcLevel.NoElevated []).1 = false
      unfold Process.execDonorCore
      rw [hd]
    · show (Process.ExecSystem os p).1 = false
      unfold Process.ExecSystem Process.execDonorCore
      split
      · split
        · rw [hd]
        · rfl
      · rfl
    · show (Process.ExecTI os p).1 = false
      unfold Process.ExecTI Process.execDonorCore
      split
      · split
        · split
          · rw [hd]
          · split
            · rw [hd]
            · rfl
        · rfl
      · rfl
  exact ⟨hfail, ((exec_obs os p el).2.2 hfail).2⟩

/-- Witness for C1: at level `system` under `sampleOS` (which has no donor
process at any level), `Exec` on a fresh `Process` fails and the pid keeps
its prior (sentinel) value. -/
theorem exec_no_donor_fails_pid_unchanged_witness :
    (Process.Exec sampleOS {} EexcLevel.System).1 = false ∧
      (Process.Exec sampleOS {} EexcLevel.System).2.1.pid = ({} : Process).pid :=
  exec_no_donor_fails_pid_unchanged sampleOS {} EexcLevel.System (Or.inr (Or.inl rfl)) rfl

/-- C2: an `Exec` call succeeds iff it leaves an empty diagnostic, a
successful call stores a non-zero pid, and a failed call leaves a non-empty
diagnostic and the pid at its prior (sentinel) value; likewise every
`AppContainer` initializer succeeds iff it leaves an empty diagnostic. -/
theorem exec_initialize_success_iff_empty_message :
    (∀ (os : OS) (p : Process) (el : EexcLevel),
      ((Process.Exec os p el).1 = true ↔ (Process.Exec os p el).2.1.kmessage = "") ∧
      ((Process.Exec os p el).1 = true → (Process.Exec os p el).2.1.pid ≠ 0) ∧
      ((Process.Exec os p el).1 = false →
        (Process.Exec os p el).2.1.kmessage ≠ "" ∧ (Process.Exec os p el).2.1.pid = p.pid)) ∧
    (∀ (os : OS) (w : World) (ac : AppContainer),
      ((AppContainer.InitializeNone os w ac).1 = true ↔
        (AppContainer.InitializeNone os w ac).2.1.kmessage = "")) ∧
    (∀ (os : OS) (w : World) (ac : AppContainer) (caps : List String),
      ((AppContainer.Initialzie os w ac caps).1 = true ↔
        (AppContainer.Initialzie os w ac caps).2.1.kmessage = "")) ∧
    (∀ (os : OS) (w : World) (ac : AppContainer) (wids : List Nat),
      (( AppContainer.Initialize os w ac wids).1 = true ↔
        ( AppContainer.Initialize os w ac wids).2.1.kmessage = "")) ∧
    (∀ (os : OS) (w : World) (ac : AppContainer) (file : String),
      ((AppContainer.InitialzieFile os w ac file).1 = true ↔
        (AppContainer.InitialzieFile os w ac file).2.1.kmessage = "")) :=
  ⟨fun os p el => exec_obs os p el,
   fun os w ac => initFromSids_obs os w ac [],
   fun os w ac caps => initialzie_obs os w ac caps,
   fun os w ac wids => initialize_obs os w ac wids,
   fun os w ac file => initialzieFile_obs os w ac file⟩

/-- C3: profile initialization under the same container name is
create-or-open idempotent — after a successful initialization, initializing
again (with any capability set) cannot fail because the profile already
exists, and the second call produces the same profile SID as the first. -/
theorem profile_create_or_open_idempotent :
    ∀ (os : OS) (w : World) (ac : AppContainer) (sids sids' : List Nat),
      (AppContainer.initFromSids os w ac sids).1 = true →
      ((AppContainer.initFromSids os ((AppContainer.initFromSids os w ac sids).2.2)
          ((AppContainer.initFromSids os w ac sids).2.1) sids').1 = true ∧
       (AppContainer.initFromSids os ((AppContainer.initFromSids os w ac sids).2.2)
          ((AppContainer.initFromSids os w ac sids).2.1) sids').2.1.appcontainersid =
         (AppContainer.initFromSids os w ac sids).2.1.appcontainersid) := by
  intro os w ac sids sids' h
  obtain ⟨hname, hsid, hmem, hne⟩ := initFromSids_success os w ac sids h
  set r := AppContainer.initFromSids os w ac sids with hr
  unfold AppContainer.initFromSids
  rw [hname, if_neg hne, if_pos hmem]
  exact ⟨rfl, by simp [hsid]⟩

/-- Witness for C3: a fresh profile named `sandbox.test` under `sampleOS`
is created successfully, and re-initializing it with a different capability
list succeeds and yields the same SID. -/
theorem profile_create_or_open_idempotent_witness :
    (AppContainer.initFromSids sampleOS ⟨[]⟩ { name := "sandbox.test" } [1, 2]).1 = true ∧
    ((AppContainer.initFromSids sampleOS
        ((AppContainer.initFromSids sampleOS ⟨[]⟩ { name := "sandbox.test" } [1, 2]).2.2)
        ((AppContainer.initFromSids sampleOS ⟨[]⟩ { name := "sandbox.test" } [1, 2]).2.1)
        [3]).1 = true ∧
     (AppContainer.initFromSids sampleOS
        ((AppContainer.initFromSids sampleOS ⟨[]⟩ { name := "sandbox.test" } [1, 2]).2.2)
        ((AppContainer.initFromSids sampleOS ⟨[]⟩ { name := "sandbox.test" } [1, 2]).2.1)
        [3]).2.1.appcontainersid =
       (AppContainer.initFromSids sampleOS ⟨[]⟩ { name := "sandbox.test" } [1, 2]).2.1.appcontainersid) :=
  ⟨by decide,
   profile_create_or_open_idempotent sampleOS ⟨[]⟩ { name := "sandbox.test" } [1, 2] [3]
     (by decide)⟩

/-- C4: initializing from capability names where some name does not resolve
to a capability SID fails with the `UnknownCapabilityError` diagnostic, the
profile registry is left unchanged (the profile is not created), and the
object's SID keeps its prior value — the unknown name is not skipped. -/
theorem initialzie_unknown_capability_fails :
    ∀ (os : OS) (w : World) (ac : AppContainer) (caps : List String) (n : String),
      n ∈ caps → os.resolveCapability n = none →
      (AppContainer.Initialzie os w ac caps).1 = false ∧
      (AppContainer.Initialzie os w ac caps).2.1.kmessage =
        "UnknownCapabilityError: capability name resolution failed" ∧
      (AppContainer.Initialzie os w ac caps).2.2 = w ∧
      (AppContainer.Initialzie os w ac caps).2.1.appcontainersid = ac.appcontainersid := by
  intro os w ac caps n hmem hres
  have h := resolveAll_eq_none os.resolveCapability caps n hmem hres
  unfold AppContainer.Initialzie
  rw [h]
  simp

/-- Witness for C4: the name `not-a-real-capability!` does not resolve under
`sampleOS`; initializing with it fails, records the unknown-capability
diagnostic, and creates no profile.  (`sampleOS` resolves a name to its
length, and the empty name to nothing, so the empty name is unknown.) -/
theorem initialzie_unknown_capability_fails_witness :
    ("" ∈ ["", "internetClient"] ∧ sampleOS.resolveCapability "" = none) ∧
    ((AppContainer.Initialzie sampleOS ⟨[]⟩ { name := "sandbox.test" } ["", "internetClient"]).1 = false ∧
     (AppContainer.Initialzie sampleOS ⟨[]⟩ { name := "sandbox.test" } ["", "internetClient"]).2.1.kmessage =
       "UnknownCapabilityError: capability name resolution failed" ∧
     (AppContainer.Initialzie sampleOS ⟨[]⟩ { name := "sandbox.test" } ["", "internetClient"]).2.2 = ⟨[]⟩ ∧
     (AppContainer.Initialzie sampleOS ⟨[]⟩ { name := "sandbox.test" } ["", "internetClient"]).2.1.appcontainersid =
       ({ name := "sandbox.test" } : AppContainer).appcontainersid) :=
  ⟨⟨by decide, by decide⟩,
   initialzie_unknown_capability_fails sampleOS ⟨[]⟩ { name := "sandbox.test" }
     ["", "internetClient"] "" (by decide) (by decide)⟩

/-- C5: name-to-SID resolution is a pure mapping — when a capability-name
list and a well-known-id list resolve to the same underlying SID list, the
two initializers produce identical results, in particular identical
capability sets. -/
theorem init_names_and_wids_same_sids_agree :
    ∀ (os : OS) (w : World) (ac : AppContainer) (caps : List String) (wids : List Nat)
      (sids : List Nat),
      resolveAll os.resolveCapability caps = some sids →
      resolveAll os.wellKnownSid wids = some sids →
      (AppContainer.Initialzie os w ac caps = AppContainer.Initialize os w ac wids ∧
       (AppContainer.Initialzie os w ac caps).2.1.ca =
         ( AppContainer.Initialize os w ac wids).2.1.ca) := by
  intro os w ac caps wids sids h1 h2
  have e1 : AppContainer.Initialzie os w ac caps = AppContainer.initFromSids os w ac sids := by
    unfold AppContainer.Initialzie; rw [h1]
  have e2 : AppContainer.Initialize os w ac wids = AppContainer.initFromSids os w ac sids := by
    unfold AppContainer.Initialize; rw [h2]
  rw [e1, e2]
  exact ⟨rfl, rfl⟩

/-- Witness for C5: under `sampleOS` the name list `["ab"]` resolves to the
SID list `[2]`, as does the well-known-id list `[2]`; the two initializers
agree on a concrete container. -/
theorem init_names_and_wids_same_sids_agree_witness :
    (resolveAll sampleOS.resolveCapability ["ab"] = some [2] ∧
     resolveAll sampleOS.wellKnownSid [2] = some [2]) ∧
    (AppContainer.Initialzie sampleOS ⟨[]⟩ { name := "sandbox.test" } ["ab"] =
       AppContainer.Initialize sampleOS ⟨[]⟩ { name := "sandbox.test" } [2] ∧
     (AppContainer.Initialzie sampleOS ⟨[]⟩ { name := "sandbox.test" } ["ab"]).2.1.ca =
       ( AppContainer.Initialize sampleOS ⟨[]⟩ { name := "sandbox.test" } [2]).2.1.ca) :=
  ⟨⟨by decide, by decide⟩,
   init_names_and_wids_same_sids_agree sampleOS ⟨[]⟩ { name := "sandbox.test" } ["ab"] [2] [2]
     (by decide) (by decide)⟩

/-- C6: the execution-level type has exactly the seven values of the source
enum, `None` is the `-1` sentinel, `Exec` called without an argument runs at
the `None` level, and at that level the only OS step performed is the launch
itself — no privilege change. -/
theorem eexclevel_seven_values_none_sentinel_default :
    EexcLevel.all.length = 7 ∧
    EexcLevel.all.Nodup ∧
    (∀ l : EexcLevel, l ∈ EexcLevel.all) ∧
    EexcLevel.value EexcLevel.None = -1 ∧
    (∀ (os : OS) (p : Process), Process.ExecDefault os p = Process.Exec os p EexcLevel.None) ∧
    (∀ (os : OS) (p : Process), (Process.Exec os p EexcLevel.None).2.2 = [OSAction.launch]) := by
  refine ⟨rfl, by decide, fun l => by cases l <;> decide, rfl, fun os p => rfl, fun os p => ?_⟩
  show (Process.launchWith os p []).2.2 = [OSAction.launch]
  rw [launchWith_trace]
  rfl

/-- C7: within any single `Exec` call, every OS step of the chosen strategy
is performed at most once — the trace of actions has no duplicate — and in
particular the installer-trust service start is attempted at most once
(never a retry loop). -/
theorem exec_no_retries_service_start_once :
    ∀ (os : OS) (p : Process) (el : EexcLevel),
      ((Process.Exec os p el).2.2).Nodup ∧
      ((Process.Exec os p el).2.2).count (OSAction.startService "TrustedInstaller") ≤ 1 ∧
      (∀ a : OSAction, ((Process.Exec os p el).2.2).count a ≤ 1) := by
  intro os p el
  have hn := exec_trace_nodup os p el
  exact ⟨hn, List.nodup_iff_count_le_one.mp hn _, List.nodup_iff_count_le_one.mp hn⟩

/-- C9 (divergence record): the source class declares no destructor, so the
implicitly-generated teardown of an `AppContainer` releases no SID at all —
even after a successful initialization that set `appcontainersid`, the
profile SID is freed zero times rather than exactly once. -/
theorem appcontainersid_never_released_on_teardown :
    ∀ (os : OS) (w : World) (ac : AppContainer) (s : Nat),
      (((AppContainer.InitializeNone os w ac).2.1).destructorReleases).count s = 0 ∧
      (∀ b : AppContainer, b.destructorReleases = []) :=
  fun _ _ _ _ => ⟨rfl, fun _ => rfl⟩

/-- C10: `CloseHandleEx` is idempotent — after one call the handle variable
is `INVALID_HANDLE_VALUE`, and a second call changes nothing and closes
nothing, so no handle is closed twice through it; a null (`0`) handle is not
treated as absent: it is passed to the OS close call. -/
theorem closeHandleEx_idempotent_null_closed :
    ∀ h : Int,
      (CloseHandleEx h).1 = INVALID_HANDLE_VALUE ∧
      CloseHandleEx (CloseHandleEx h).1 = (INVALID_HANDLE_VALUE, []) ∧
      (CloseHandleEx 0).2 = [0] := by
  intro h
  have h1 : (CloseHandleEx h).1 = INVALID_HANDLE_VALUE := by
    unfold CloseHandleEx
    split
    · rfl
    · simp_all
  refine ⟨h1, ?_, by decide⟩
  rw [h1]
  decide
